import Mathlib

set_option linter.unusedVariables false

/-!
Verification of the Argo workflow automation script
(`.github/workflows/scripts/argoworkflows.py`).

The script is embedded shallowly: pure string manipulation becomes Lean
functions on `String`; the external Argo API (one submission call plus a
stream of status fetches) is a parameter `ApiBehavior`; Python exceptions
become `Except`; the poll loop is a fuel-bounded recursion whose fuel is
exactly the remaining retry budget.
-/

namespace Argo

/-- `ARGO_HOST` constant from the script. -/
def ARGO_HOST : String := "https://your-argo-server.com"

/-- `MAX_RETRIES` constant from the script. -/
def MAX_RETRIES : Nat := 120

/-! ### Python `str.split(sep, maxsplit)` -/

/-- Python `str.split(sep, maxsplit)` on the character list: splits at the
first `n` occurrences of `sep`; the remainder stays in one piece.
`splitMax sep [] n = [[]]`, matching Python's `"".split(sep) == ['']`. -/
def splitMax (sep : Char) : List Char → Nat → List (List Char)
  | [], _ => [[]]
  | c :: cs, 0 => [c :: cs]
  | c :: cs, n + 1 =>
    if c = sep then [] :: splitMax sep cs n
    else
      match splitMax sep cs (n + 1) with
      | [] => [[c]]
      | p :: ps => (c :: p) :: ps

/-- Python `s.split(sep, maxsplit)` on strings. -/
def pySplit (s : String) (sep : Char) (maxsplit : Nat) : List String :=
  (splitMax sep s.data maxsplit).map (fun cs => String.mk cs)

/-- Python `s.split(sep)` (no maxsplit) on the character list. -/
def splitAll (sep : Char) : List Char → List (List Char)
  | [] => [[]]
  | c :: cs =>
    if c = sep then [] :: splitAll sep cs
    else
      match splitAll sep cs with
      | [] => [[c]]
      | p :: ps => (c :: p) :: ps

/-- Number of hyphen-separated segments of a repository name
(Python `len(repo_name.split('-'))`). -/
def hyphenSegments (s : String) : Nat := (splitAll '-' s.data).length

/-! ### `parse_repo_name` and `get_workflow_config` -/

/-- `parse_repo_name` from the script:
`parts = repo_name.split('-', 2)`; with at least two parts the capability is
`parts[0]` and the application is `parts[1]` or `parts[1] + "-" + parts[2]`;
otherwise both are the whole name. -/
def parse_repo_name (repo_name : String) : String × String :=
  match pySplit repo_name '-' 2 with
  | p0 :: p1 :: p2 :: _ => (p0, p1 ++ "-" ++ p2)
  | [p0, p1] => (p0, p1)
  | _ => (repo_name, repo_name)

/-- The dictionary returned by `get_workflow_config`. -/
structure WorkflowConfig where
  namespace_ : String
  workflow_template_name : String
  workflow_url_base : String
  deriving DecidableEq, Repr

/-- `get_workflow_config` from the script. -/
def get_workflow_config (repo_name : String) : WorkflowConfig :=
  let capability := (parse_repo_name repo_name).1
  let ns := capability ++ "-deploy-wf"
  { namespace_ := ns
    workflow_template_name := capability ++ "-workload-staging"
    workflow_url_base := ARGO_HOST ++ "/workflows/" ++ ns }

/-! ### JSON values and `get_deploy_settings` -/

/-- Python values produced by `json.loads`. -/
inductive Json where
  | null : Json
  | bool : Bool → Json
  | num : Int → Json
  | str : String → Json
  | arr : List Json → Json
  | obj : List (String × Json) → Json

/-- Python `dict.get(k)` on an association list of JSON values. -/
def dictGet (kvs : List (String × Json)) (k : String) : Option Json :=
  (kvs.find? (fun p => p.1 == k)).map (fun p => p.2)

/-- The default settings dictionary `{'app_branch': 'main'}`. -/
def defaultSettings : Json := .obj [("app_branch", .str "main")]

/-- Python exceptions that can escape the functions modelled here. -/
inductive PyError where
  | attributeError : PyError
  deriving DecidableEq, Repr

/-- `get_deploy_settings` from the script, parameterised by the behaviour
`loads` of the external `json.loads` (`.error` = `json.JSONDecodeError`).
`settings_json = none` models Python `None`; the `not settings_json` test is
true for `None` and for the empty string.  Only `json.JSONDecodeError` is
caught; calling `.get` on a parsed non-dict raises `AttributeError`, which
propagates to the caller. -/
def get_deploy_settings (loads : String → Except Unit Json)
    (settings_json : Option String) (branch : String := "main") :
    Except PyError Json :=
  if settings_json.getD "" = "" then .ok defaultSettings
  else
    match loads (settings_json.getD "") with
    | .error _ => .ok defaultSettings
    | .ok settings =>
      match settings with
      | .obj kvs =>
        .ok ((dictGet kvs branch).getD ((dictGet kvs "main").getD defaultSettings))
      | _ => .error .attributeError

/-- Behaviour of Python `json.loads` on the concrete inputs used in this
development: `json.loads("[]")` yields the empty array; the other strings
used below are not valid JSON and raise `json.JSONDecodeError`. -/
def json_loads_model (s : String) : Except Unit Json :=
  if s = "[]" then .ok (.arr []) else .error ()

/-! ### Parameters and submission request -/

/-- A deploy-settings dictionary as passed to `argoSubmit` (a Python dict
mapping string keys to JSON values, or `none` for Python `None`). -/
abbrev PyDict := List (String × Json)

/-- `prepare_workflow_parameters` from the script.  The `app_branch`
argument is accepted (Python default `'main'`) but does not occur in the
returned list. -/
def prepare_workflow_parameters (environment application : String)
    (app_branch : Json := .str "main") : List String :=
  ["environment=" ++ environment,
   "application=" ++ application,
   "log_level=info"]

/-- The `IoArgoprojWorkflowV1alpha1SubmitOpts` payload built by the script. -/
structure SubmitOpts where
  parameters : List String
  labels : String

/-- The `IoArgoprojWorkflowV1alpha1WorkflowSubmitRequest` payload built by
`create_workflow_request`. -/
structure WorkflowSubmitRequest where
  resource_kind : String
  resource_name : String
  submit_options : SubmitOpts
  workflow_template_ref : String

/-- `create_workflow_request` from the script. -/
def create_workflow_request (parameters : List String)
    (workflow_template_name : String) : WorkflowSubmitRequest :=
  { resource_kind := "WorkflowTemplate"
    resource_name := workflow_template_name
    submit_options :=
      { parameters := parameters
        labels := "workflows.argoproj.io/creator-email=automation@example.com" }
    workflow_template_ref := workflow_template_name }

/-! ### Workflow status and the poll loop -/

/-- A workflow object returned by `get_workflow`; `status` is its `status`
dictionary (string-valued fields, the phase under key `"phase"`). -/
structure WorkflowStatus where
  status : List (String × String)

/-- `workflow_status.status.get('phase', 'Unknown')` from the script. -/
def WorkflowStatus.phase (w : WorkflowStatus) : String :=
  (((w.status.find? (fun p => p.1 == "phase")).map (fun p => p.2)).getD "Unknown")

/-- The terminal-phase test `status_phase in ["Succeeded", "Failed", "Error"]`. -/
def isTerminal (phase : String) : Bool :=
  phase == "Succeeded" || phase == "Failed" || phase == "Error"

/-- The `while retry_count < MAX_RETRIES` loop of `poll_workflow_status`.
`fetch i` is the result of the status fetch performed at `retry_count = i`
(`none` models a falsy response); `fuel` is `MAX_RETRIES - retry_count`.
The first component instruments the number of status fetches performed; the
second component is the loop's return value (`none` = budget exhausted). -/
def pollFrom (fetch : Nat → Option WorkflowStatus) :
    Nat → Nat → Nat × Option WorkflowStatus
  | _, 0 => (0, none)
  | r, fuel + 1 =>
    match fetch r with
    | none =>
      let rest := pollFrom fetch (r + 1) fuel
      (rest.1 + 1, rest.2)
    | some ws =>
      if isTerminal ws.phase then (1, some ws)
      else
        let rest := pollFrom fetch (r + 1) fuel
        (rest.1 + 1, rest.2)

/-- `poll_workflow_status` from the script: the value returned to
`argoSubmit`. -/
def poll_workflow_status (fetch : Nat → Option WorkflowStatus) :
    Option WorkflowStatus :=
  (pollFrom fetch 0 MAX_RETRIES).2

/-- Number of status fetches `poll_workflow_status` performs. -/
def pollFetchCount (fetch : Nat → Option WorkflowStatus) : Nat :=
  (pollFrom fetch 0 MAX_RETRIES).1

/-! ### `argoSubmit` -/

/-- The external Argo API as seen by one invocation of `argoSubmit`:
`submit n` is the outcome of the `n`-th submission call (the script performs
exactly one) — `some (name, namespace)` from the response metadata, or
`none` when `submit_workflow` catches an exception; `fetch i` is the outcome
of the status fetch at `retry_count = i`. -/
structure ApiBehavior where
  submit : Nat → Option (String × String)
  fetch : Nat → Option WorkflowStatus

/-- `app_branch = deploy_settings.get('app_branch', 'main') if deploy_settings
else 'main'` from `argoSubmit` (`None` and the empty dict are falsy). -/
def app_branch_of (deploy_settings : Option PyDict) : Json :=
  match deploy_settings with
  | none => .str "main"
  | some d => if d.isEmpty then .str "main" else (dictGet d "app_branch").getD (.str "main")

/-- The parameter list `argoSubmit` builds for a given repository,
environment and deploy settings. -/
def argoSubmitParameters (repo_name environment : String)
    (deploy_settings : Option PyDict) : List String :=
  prepare_workflow_parameters environment (parse_repo_name repo_name).2
    (app_branch_of deploy_settings)

/-- The submission request `argoSubmit` passes to `submit_workflow`. -/
def argoSubmitRequest (repo_name environment : String)
    (deploy_settings : Option PyDict) : WorkflowSubmitRequest :=
  create_workflow_request (argoSubmitParameters repo_name environment deploy_settings)
    (get_workflow_config repo_name).workflow_template_name

/-- `argoSubmit` from the script, over an `ApiBehavior`.  The `argo_token`
only configures the client and cannot influence the modelled result.
Returns `(status_code, workflow_name, workflow_url)`. -/
def argoSubmit (api : ApiBehavior) (argo_token repo_name environment : String)
    (deploy_settings : Option PyDict := none) : Nat × String × String :=
  let workflow_config := get_workflow_config repo_name
  let workflow_url_base := workflow_config.workflow_url_base
  let submit_request := argoSubmitRequest repo_name environment deploy_settings
  match api.submit 0 with
  | none => (1, "", "")
  | some (workflow_name, _workflow_namespace) =>
    let final_status := poll_workflow_status api.fetch
    let workflow_url := workflow_url_base ++ "/" ++ workflow_name
    match final_status with
    | some fs =>
      let final_phase := fs.phase
      if final_phase = "Succeeded" then (0, workflow_name, workflow_url)
      else if final_phase = "Running" ∨ final_phase = "Pending" then
        (0, workflow_name, workflow_url)
      else (1, workflow_name, workflow_url)
    | none => (1, workflow_name, workflow_url)

/-- `argoSubmit` with the defensive `Running`/`Pending` branch removed
(those phases fall through to the failure result).  Used to state that the
branch is unreachable: the function is extensionally equal to `argoSubmit`. -/
def argoSubmitNoInProgress (api : ApiBehavior)
    (argo_token repo_name environment : String)
    (deploy_settings : Option PyDict := none) : Nat × String × String :=
  let workflow_config := get_workflow_config repo_name
  let workflow_url_base := workflow_config.workflow_url_base
  match api.submit 0 with
  | none => (1, "", "")
  | some (workflow_name, _workflow_namespace) =>
    let final_status := poll_workflow_status api.fetch
    let workflow_url := workflow_url_base ++ "/" ++ workflow_name
    match final_status with
    | some fs =>
      if fs.phase = "Succeeded" then (0, workflow_name, workflow_url)
      else (1, workflow_name, workflow_url)
    | none => (1, workflow_name, workflow_url)

/-! ### Helper lemmas on splitting -/

/-- `str.split` never returns an empty list of parts. -/
theorem splitMax_ne_nil (sep : Char) : ∀ (cs : List Char) (n : Nat),
    splitMax sep cs n ≠ [] := by
  intro cs
  induction cs with
  | nil => intro n; simp [splitMax]
  | cons c cs ih =>
    intro n
    cases n with
    | zero => simp [splitMax]
    | succ n =>
      by_cases hc : c = sep
      · simp [splitMax, hc]
      · simp only [splitMax, if_neg hc]
        cases h : splitMax sep cs (n + 1) with
        | nil => exact absurd h (ih (n + 1))
        | cons p ps => simp

/-- `str.split(sep, n)` returns at most `n + 1` parts. -/
theorem splitMax_length_le (sep : Char) : ∀ (cs : List Char) (n : Nat),
    (splitMax sep cs n).length ≤ n + 1 := by
  intro cs
  induction cs with
  | nil => intro n; simp [splitMax]
  | cons c cs ih =>
    intro n
    cases n with
    | zero => simp [splitMax]
    | succ n =>
      by_cases hc : c = sep
      · simp only [splitMax, if_pos hc, List.length_cons]
        exact Nat.succ_le_succ (ih n)
      · simp only [splitMax, if_neg hc]
        cases h : splitMax sep cs (n + 1) with
        | nil => simp
        | cons p ps =>
          have := ih (n + 1)
          rw [h] at this
          simpa using this

/-- Splitting a hyphen-free string leaves it whole. -/
theorem splitMax_no_sep (sep : Char) : ∀ (cs : List Char) (n : Nat),
    (∀ c ∈ cs, c ≠ sep) → splitMax sep cs n = [cs] := by
  intro cs
  induction cs with
  | nil => intro n _; cases n <;> rfl
  | cons c cs ih =>
    intro n h
    have hc : c ≠ sep := h c (by simp)
    cases n with
    | zero => rfl
    | succ n =>
      simp only [splitMax, if_neg hc]
      rw [ih (n + 1) (fun d hd => h d (by simp [hd]))]

/-! ### Helper lemmas on the poll loop -/

/-- If every fetch is empty or non-terminal, the loop consumes all its fuel,
performs one fetch per unit of fuel, and returns no result. -/
theorem pollFrom_nonterminal (fetch : Nat → Option WorkflowStatus)
    (h : ∀ i ws, fetch i = some ws → isTerminal ws.phase = false) :
    ∀ (fuel r : Nat), pollFrom fetch r fuel = (fuel, none) := by
  intro fuel
  induction fuel with
  | zero => intro r; rfl
  | succ fuel ih =>
    intro r
    cases hf : fetch r with
    | none => simp [pollFrom, hf, ih (r + 1)]
    | some ws => simp [pollFrom, hf, h r ws hf, ih (r + 1)]

/-- If the fetches before step `k` are empty or non-terminal and the fetch
at step `k` yields a terminal status, the loop stops there, after exactly
`k + 1` fetches, returning that status. -/
theorem pollFrom_terminal_at (fetch : Nat → Option WorkflowStatus)
    (ws : WorkflowStatus) (hws : isTerminal ws.phase = true) :
    ∀ (k r fuel : Nat), k < fuel → fetch (r + k) = some ws →
    (∀ i, i < k → ∀ w, fetch (r + i) = some w → isTerminal w.phase = false) →
    pollFrom fetch r fuel = (k + 1, some ws) := by
  intro k
  induction k with
  | zero =>
    intro r fuel hk hfk _
    cases fuel with
    | zero => omega
    | succ fuel =>
      simp only [Nat.add_zero] at hfk
      simp [pollFrom, hfk, hws]
  | succ k ih =>
    intro r fuel hk hfk hpre
    cases fuel with
    | zero => omega
    | succ fuel =>
      have hrec : pollFrom fetch (r + 1) fuel = (k + 1, some ws) := by
        apply ih (r + 1) fuel (by omega)
        · have : r + 1 + k = r + (k + 1) := by omega
          rw [this]; exact hfk
        · intro i hi w hw
          have : r + 1 + i = r + (i + 1) := by omega
          rw [this] at hw
          exact hpre (i + 1) (by omega) w hw
      cases hf : fetch r with
      | none => simp [pollFrom, hf, hrec]
      | some w =>
        have hnt : isTerminal w.phase = false := by
          have := hpre 0 (by omega) w
          simp only [Nat.add_zero] at this
          exact this hf
        simp [pollFrom, hf, hnt, hrec]

/-- Whenever the loop returns a status, its phase is terminal. -/
theorem pollFrom_some_terminal (fetch : Nat → Option WorkflowStatus) :
    ∀ (fuel r c : Nat) (ws : WorkflowStatus),
    pollFrom fetch r fuel = (c, some ws) → isTerminal ws.phase = true := by
  intro fuel
  induction fuel with
  | zero => intro r c ws h; simp [pollFrom] at h
  | succ fuel ih =>
    intro r c ws h
    rcases hres : pollFrom fetch (r + 1) fuel with ⟨a, b⟩
    cases hf : fetch r with
    | none =>
      simp only [pollFrom, hf, hres] at h
      have h2 : b = some ws := congrArg Prod.snd h
      rw [h2] at hres
      exact ih (r + 1) a ws hres
    | some w =>
      by_cases ht : isTerminal w.phase
      · simp only [pollFrom, hf, if_pos ht] at h
        have h2 : some w = some ws := congrArg Prod.snd h
        have h3 : w = ws := Option.some.inj h2
        exact h3 ▸ ht
      · simp only [pollFrom, hf, ht, if_neg, hres] at h
        have h2 : b = some ws := congrArg Prod.snd h
        rw [h2] at hres
        exact ih (r + 1) a ws hres

/-- A string with a literal hyphen spliced into the middle is never empty. -/
theorem append_hyphen_ne_empty (a b : String) : a ++ "-" ++ b ≠ "" := by
  intro h
  have h2 := congrArg String.length h
  simp [String.length_append] at h2
  exact absurd h2.1.2 (by decide)

/-! ### Claims -/

/-- C4: `parse_repo_name` splits the repository name on `-` into at most 3
parts; with exactly two parts the capability is the first part and the
application the second; with three parts the application is the second and
third parts rejoined with a hyphen; with a single part both equal the full
name.  Concretely, "api-service" maps to ("api", "service"),
"payments-billing-core" to ("payments", "billing-core") and "standalone" to
("standalone", "standalone"). -/
theorem C4_parse_repo_name_shape :
    (∀ s : String, (pySplit s '-' 2).length ≤ 3) ∧
    (∀ s p0 p1 : String, pySplit s '-' 2 = [p0, p1] →
      parse_repo_name s = (p0, p1)) ∧
    (∀ s p0 p1 p2 : String, pySplit s '-' 2 = [p0, p1, p2] →
      parse_repo_name s = (p0, p1 ++ "-" ++ p2)) ∧
    (∀ s p0 : String, pySplit s '-' 2 = [p0] →
      parse_repo_name s = (s, s)) ∧
    parse_repo_name "api-service" = ("api", "service") ∧
    parse_repo_name "payments-billing-core" = ("payments", "billing-core") ∧
    parse_repo_name "standalone" = ("standalone", "standalone") := by
  refine ⟨?_, ?_, ?_, ?_, by decide, by decide, by decide⟩
  · intro s
    have h := splitMax_length_le '-' s.data 2
    simpa [pySplit] using h
  · intro s p0 p1 h
    simp [parse_repo_name, h]
  · intro s p0 p1 p2 h
    simp [parse_repo_name, h]
  · intro s p0 h
    simp [parse_repo_name, h]

/-- Witness for C4 at the three concrete repository names of the claim. -/
theorem C4_witness :
    pySplit "api-service" '-' 2 = ["api", "service"] ∧
    parse_repo_name "api-service" = ("api", "service") ∧
    pySplit "payments-billing-core" '-' 2 = ["payments", "billing", "core"] ∧
    parse_repo_name "payments-billing-core" = ("payments", "billing" ++ "-" ++ "core") ∧
    pySplit "standalone" '-' 2 = ["standalone"] ∧
    parse_repo_name "standalone" = ("standalone", "standalone") :=
  ⟨by decide,
   C4_parse_repo_name_shape.2.1 "api-service" "api" "service" (by decide),
   by decide,
   C4_parse_repo_name_shape.2.2.1 "payments-billing-core" "payments" "billing" "core"
     (by decide),
   by decide,
   C4_parse_repo_name_shape.2.2.2.1 "standalone" "standalone" (by decide)⟩

/-- C2 as stated is false: the name "api-" has exactly two hyphen-separated
segments, yet `parse_repo_name` returns the empty application, because
`"api-".split('-', 2) == ['api', '']`. -/
theorem C2_counterexample :
    hyphenSegments "api-" = 2 ∧ (parse_repo_name "api-").2 = "" := by
  decide

/-- C2 amended: for every repository name with at least 2 hyphen-separated
segments whose text after the first hyphen is non-empty, `parse_repo_name`
returns a non-empty application (a name whose only text after the first
hyphen is empty yields an empty application); and for a name with no hyphen,
capability and application both equal the full name. -/
theorem C2_amended_nonempty_application :
    (∀ (s p0 p1 : String) (rest : List String),
      pySplit s '-' 2 = p0 :: p1 :: rest →
      (p1 ≠ "" ∨ rest ≠ []) → (parse_repo_name s).2 ≠ "") ∧
    (∀ s : String, (∀ c ∈ s.data, c ≠ '-') → parse_repo_name s = (s, s)) := by
  constructor
  · intro s p0 p1 rest h hne
    cases rest with
    | nil =>
      rcases hne with hp | hr
      · have hps : parse_repo_name s = (p0, p1) := by simp [parse_repo_name, h]
        rw [hps]
        exact hp
      · exact absurd rfl hr
    | cons p2 rest2 =>
      have hps : parse_repo_name s = (p0, p1 ++ "-" ++ p2) := by
        simp [parse_repo_name, h]
      rw [hps]
      exact append_hyphen_ne_empty p1 p2
  · intro s h
    have hs : splitMax '-' s.data 2 = [s.data] := splitMax_no_sep '-' s.data 2 h
    simp [parse_repo_name, pySplit, hs]

/-- Witness for the amended C2 at "api-service" and "standalone". -/
theorem C2_amended_witness :
    (parse_repo_name "api-service").2 ≠ "" ∧
    parse_repo_name "standalone" = ("standalone", "standalone") :=
  ⟨C2_amended_nonempty_application.1 "api-service" "api" "service" []
     (by decide) (Or.inl (by decide)),
   C2_amended_nonempty_application.2 "standalone" (by decide)⟩

/-- C3 as stated is false: `"[]"` is a valid JSON input (so it is not
rejected as malformed), but the parsed value is a list, and
`settings.get(...)` on a list raises `AttributeError`, which
`get_deploy_settings` does not catch — it escapes to the caller. -/
theorem C3_counterexample :
    json_loads_model "[]" = .ok (.arr []) ∧
    get_deploy_settings json_loads_model (some "[]") "main" =
      .error .attributeError :=
  ⟨rfl, rfl⟩

/-- C3 amended: `get_deploy_settings` never raises when the input is missing,
empty, fails JSON parsing (logged, default returned), or parses to a JSON
object; but an input parsing to a non-object JSON value raises an uncaught
`AttributeError`. -/
theorem C3_amended_soft_failure :
    ∀ (loads : String → Except Unit Json) (branch : String),
    get_deploy_settings loads none branch = .ok defaultSettings ∧
    get_deploy_settings loads (some "") branch = .ok defaultSettings ∧
    (∀ (s : String) (e : Unit), s ≠ "" → loads s = .error e →
      get_deploy_settings loads (some s) branch = .ok defaultSettings) ∧
    (∀ (s : String) (kvs : List (String × Json)), s ≠ "" → loads s = .ok (.obj kvs) →
      get_deploy_settings loads (some s) branch =
        .ok ((dictGet kvs branch).getD ((dictGet kvs "main").getD defaultSettings))) := by
  intro loads branch
  refine ⟨rfl, rfl, ?_, ?_⟩
  · intro s e hs he
    simp [get_deploy_settings, hs, he]
  · intro s kvs hs hk
    simp [get_deploy_settings, hs, hk]

/-- Witness for the amended C3 at missing, empty and non-JSON inputs. -/
theorem C3_amended_witness :
    get_deploy_settings json_loads_model none "main" = .ok defaultSettings ∧
    get_deploy_settings json_loads_model (some "") "main" = .ok defaultSettings ∧
    get_deploy_settings json_loads_model (some "not-json") "main" = .ok defaultSettings :=
  ⟨(C3_amended_soft_failure json_loads_model "main").1,
   (C3_amended_soft_failure json_loads_model "main").2.1,
   (C3_amended_soft_failure json_loads_model "main").2.2.1 "not-json" () (by decide) rfl⟩

/-- C6: the poll loop is bounded by `MAX_RETRIES = 120` iterations: against a
status source that always yields a non-terminal phase it performs exactly 120
status fetches and returns no result (`none`, distinct from any terminal
status). -/
theorem C6_poll_budget :
    MAX_RETRIES = 120 ∧
    ∀ (fetch : Nat → Option WorkflowStatus),
      (∀ i, ∃ ws, fetch i = some ws ∧ isTerminal ws.phase = false) →
      poll_workflow_status fetch = none ∧ pollFetchCount fetch = 120 := by
  refine ⟨rfl, ?_⟩
  intro fetch h
  have hnt : ∀ i ws, fetch i = some ws → isTerminal ws.phase = false := by
    intro i ws hw
    obtain ⟨w, hw2, hterm⟩ := h i
    rw [hw] at hw2
    injection hw2 with h3
    rw [h3]
    exact hterm
  have hall := pollFrom_nonterminal fetch hnt MAX_RETRIES 0
  have hc : pollFetchCount fetch = MAX_RETRIES := by
    simp [pollFetchCount, hall]
  exact ⟨by simp [poll_workflow_status, hall], by rw [hc]; rfl⟩

/-- Witness for C6: a source that always reports `Running`. -/
theorem C6_witness :
    poll_workflow_status (fun _ => some ⟨[("phase", "Running")]⟩) = none ∧
    pollFetchCount (fun _ => some ⟨[("phase", "Running")]⟩) = 120 :=
  C6_poll_budget.2 (fun _ => some ⟨[("phase", "Running")]⟩)
    (fun _ => ⟨⟨[("phase", "Running")]⟩, rfl, rfl⟩)

/-- C7: the poll loop returns as soon as the fetched phase is terminal
(`Succeeded`, `Failed` or `Error`): if the fetches before step `k` are
non-terminal and step `k` yields a terminal status, the loop returns that
status after exactly `k + 1` fetches.  `Pending`, `Running` and `Unknown`
are non-terminal (hence retried); `Succeeded`, `Failed` and `Error` are
terminal. -/
theorem C7_poll_terminal_stop :
    (∀ (fetch : Nat → Option WorkflowStatus) (k : Nat) (ws : WorkflowStatus),
      k < MAX_RETRIES → fetch k = some ws → isTerminal ws.phase = true →
      (∀ i, i < k → ∀ w, fetch i = some w → isTerminal w.phase = false) →
      poll_workflow_status fetch = some ws ∧ pollFetchCount fetch = k + 1) ∧
    isTerminal "Succeeded" = true ∧ isTerminal "Failed" = true ∧
    isTerminal "Error" = true ∧ isTerminal "Pending" = false ∧
    isTerminal "Running" = false ∧ isTerminal "Unknown" = false := by
  refine ⟨?_, rfl, rfl, rfl, rfl, rfl, rfl⟩
  intro fetch k ws hk hf ht hpre
  have hrun := pollFrom_terminal_at fetch ws ht k 0 MAX_RETRIES hk
    (by simpa using hf) (by simpa using hpre)
  exact ⟨by simp [poll_workflow_status, hrun], by simp [pollFetchCount, hrun]⟩

/-- Witness for C7: `Running` twice, then `Succeeded` on the 3rd fetch. -/
theorem C7_witness :
    poll_workflow_status (fun i => if i < 2 then some ⟨[("phase", "Running")]⟩
        else some ⟨[("phase", "Succeeded")]⟩) = some ⟨[("phase", "Succeeded")]⟩ ∧
    pollFetchCount (fun i => if i < 2 then some ⟨[("phase", "Running")]⟩
        else some ⟨[("phase", "Succeeded")]⟩) = 3 :=
  C7_poll_terminal_stop.1 _ 2 ⟨[("phase", "Succeeded")]⟩ (by decide) rfl rfl
    (by
      intro i hi w hw
      interval_cases i <;>
        · simp only [Option.some.injEq, show (0 : Nat) < 2 by decide,
            show (1 : Nat) < 2 by decide, if_pos] at hw
          rw [← hw]
          rfl)

/-- C10: `poll_workflow_status` only ever returns `none` or a status whose
phase is `Succeeded`, `Failed` or `Error` — never `Running` or `Pending`;
consequently `argoSubmit` coincides everywhere with the variant in which the
"still in progress" branch for a returned `Running`/`Pending` phase is
removed: that branch is unreachable. -/
theorem C10_poll_terminal_only :
    (∀ (fetch : Nat → Option WorkflowStatus) (ws : WorkflowStatus),
      poll_workflow_status fetch = some ws →
      (ws.phase = "Succeeded" ∨ ws.phase = "Failed" ∨ ws.phase = "Error") ∧
      ¬(ws.phase = "Running" ∨ ws.phase = "Pending")) ∧
    (∀ (api : ApiBehavior) (argo_token repo_name environment : String)
      (deploy_settings : Option PyDict),
      argoSubmit api argo_token repo_name environment deploy_settings =
        argoSubmitNoInProgress api argo_token repo_name environment deploy_settings) := by
  have key : ∀ (fetch : Nat → Option WorkflowStatus) (ws : WorkflowStatus),
      poll_workflow_status fetch = some ws →
      ws.phase = "Succeeded" ∨ ws.phase = "Failed" ∨ ws.phase = "Error" := by
    intro fetch ws h
    rcases hres : pollFrom fetch 0 MAX_RETRIES with ⟨a, b⟩
    have hb : b = some ws := by
      rw [poll_workflow_status, hres] at h
      exact h
    rw [hb] at hres
    have hterm := pollFrom_some_terminal fetch MAX_RETRIES 0 a ws hres
    have h3 : (ws.phase = "Succeeded" ∨ ws.phase = "Failed") ∨ ws.phase = "Error" := by
      simpa [isTerminal] using hterm
    tauto
  constructor
  · intro fetch ws h
    refine ⟨key fetch ws h, ?_⟩
    rcases key fetch ws h with h1 | h1 | h1 <;> simp [h1]
  · intro api argo_token repo_name environment deploy_settings
    cases hs : api.submit 0 with
    | none => simp [argoSubmit, argoSubmitNoInProgress, hs]
    | some nmns =>
      obtain ⟨nm, ns⟩ := nmns
      cases hps : poll_workflow_status api.fetch with
      | none => simp [argoSubmit, argoSubmitNoInProgress, hs, hps]
      | some fs =>
        rcases key api.fetch fs hps with h1 | h1 | h1 <;>
          simp [argoSubmit, argoSubmitNoInProgress, hs, hps, h1]

/-- Witness for C10: a source reporting `Failed` immediately; the poll result
has a terminal phase, and `argoSubmit` agrees with the branch-free variant. -/
theorem C10_witness :
    ((WorkflowStatus.mk [("phase", "Failed")]).phase = "Succeeded" ∨
     (WorkflowStatus.mk [("phase", "Failed")]).phase = "Failed" ∨
     (WorkflowStatus.mk [("phase", "Failed")]).phase = "Error") ∧
    argoSubmit ⟨fun _ => some ("wf-9", "resp-ns"), fun _ => some ⟨[("phase", "Failed")]⟩⟩
        "tok" "api-service" "staging" none =
      argoSubmitNoInProgress ⟨fun _ => some ("wf-9", "resp-ns"),
        fun _ => some ⟨[("phase", "Failed")]⟩⟩ "tok" "api-service" "staging" none :=
  ⟨(C10_poll_terminal_only.1 (fun _ => some ⟨[("phase", "Failed")]⟩)
      ⟨[("phase", "Failed")]⟩ rfl).1,
   C10_poll_terminal_only.2 ⟨fun _ => some ("wf-9", "resp-ns"),
     fun _ => some ⟨[("phase", "Failed")]⟩⟩ "tok" "api-service" "staging" none⟩

/-- C5: when the submission call fails, `argoSubmit` returns `(1, "", "")`
immediately — the result does not depend on the status-fetch behaviour (the
poll loop is never entered) nor on the outcome of any further submission
attempt (the submission is not retried). -/
theorem C5_submit_failure_short_circuit :
    ∀ (submit1 submit2 : Nat → Option (String × String))
      (fetch1 fetch2 : Nat → Option WorkflowStatus)
      (argo_token repo_name environment : String) (ds : Option PyDict),
      submit1 0 = none →
      argoSubmit ⟨submit1, fetch1⟩ argo_token repo_name environment ds = (1, "", "") ∧
      (submit2 0 = none →
        argoSubmit ⟨submit1, fetch1⟩ argo_token repo_name environment ds =
          argoSubmit ⟨submit2, fetch2⟩ argo_token repo_name environment ds) := by
  intro submit1 submit2 fetch1 fetch2 argo_token repo_name environment ds h1
  have e1 : argoSubmit ⟨submit1, fetch1⟩ argo_token repo_name environment ds = (1, "", "") := by
    simp [argoSubmit, h1]
  refine ⟨e1, fun h2 => ?_⟩
  rw [e1]
  simp [argoSubmit, h2]

/-- Witness for C5: a failing submission next to a fetch stream that would
report `Succeeded` — the result is still `(1, "", "")`. -/
theorem C5_witness :
    argoSubmit ⟨fun _ => none, fun _ => some ⟨[("phase", "Succeeded")]⟩⟩
      "tok" "api-service" "staging" none = (1, "", "") :=
  (C5_submit_failure_short_circuit (fun _ => none) (fun _ => none)
    (fun _ => some ⟨[("phase", "Succeeded")]⟩) (fun _ => none)
    "tok" "api-service" "staging" none rfl).1

/-- C8: when submission succeeds with run name `nm` and the first poll
observes phase `Succeeded`, `argoSubmit` returns
`(0, nm, ARGO_HOST ++ "/workflows/" ++ namespace ++ "/" ++ nm)` where the
namespace is derived from the repository name as `capability ++ "-deploy-wf"`. -/
theorem C8_success_first_poll :
    ∀ (api : ApiBehavior) (argo_token repo_name environment : String)
      (ds : Option PyDict) (nm ns : String) (ws : WorkflowStatus),
      api.submit 0 = some (nm, ns) →
      api.fetch 0 = some ws →
      ws.phase = "Succeeded" →
      argoSubmit api argo_token repo_name environment ds =
        (0, nm, ARGO_HOST ++ "/workflows/" ++
          ((parse_repo_name repo_name).1 ++ "-deploy-wf") ++ "/" ++ nm) := by
  intro api argo_token repo_name environment ds nm ns ws hsub hf hph
  have hterm : isTerminal ws.phase = true := by rw [hph]; rfl
  have hrun := pollFrom_terminal_at api.fetch ws hterm 0 0 MAX_RETRIES (by decide)
    (by simpa using hf) (fun i hi w hw => absurd hi (Nat.not_lt_zero i))
  have hps : poll_workflow_status api.fetch = some ws := by
    simp [poll_workflow_status, hrun]
  simp [argoSubmit, hsub, hps, hph, get_workflow_config]

/-- Witness for C8: immediate `Succeeded` on repository "api-service". -/
theorem C8_witness :
    argoSubmit ⟨fun _ => some ("wf-1", "resp-ns"), fun _ => some ⟨[("phase", "Succeeded")]⟩⟩
      "tok" "api-service" "staging" none =
      (0, "wf-1", "https://your-argo-server.com/workflows/api-deploy-wf/wf-1") := by
  rw [C8_success_first_poll
    ⟨fun _ => some ("wf-1", "resp-ns"), fun _ => some ⟨[("phase", "Succeeded")]⟩⟩
    "tok" "api-service" "staging" none "wf-1" "resp-ns" ⟨[("phase", "Succeeded")]⟩
    rfl rfl rfl]
  decide

/-- C1 as stated is false: with a successful submission and a status source
that always reports `Running`, the poll loop exhausts its budget and returns
no result, and `argoSubmit` then returns exit code 1 (logging "status could
not be determined") together with the name and URL — not exit code 0. -/
theorem C1_counterexample :
    poll_workflow_status (fun _ => some ⟨[("phase", "Running")]⟩) = none ∧
    argoSubmit ⟨fun _ => some ("wf-1", "api-deploy-wf"),
        fun _ => some ⟨[("phase", "Running")]⟩⟩ "tok" "api-service" "staging" none =
      (1, "wf-1", "https://your-argo-server.com/workflows/api-deploy-wf/wf-1") :=
  ⟨rfl, rfl⟩

/-- C1 amended: if submission succeeds and the poll loop exhausts its retry
budget without reaching a terminal phase (returns no result), the overall
operation returns exit code 1 together with the workflow name and URL —
budget exhaustion is surfaced as a failure ("status could not be
determined"), not as "in progress". -/
theorem C1_amended_exhaustion_failure :
    ∀ (api : ApiBehavior) (argo_token repo_name environment : String)
      (ds : Option PyDict) (nm ns : String),
      api.submit 0 = some (nm, ns) →
      poll_workflow_status api.fetch = none →
      argoSubmit api argo_token repo_name environment ds =
        (1, nm, (get_workflow_config repo_name).workflow_url_base ++ "/" ++ nm) := by
  intro api argo_token repo_name environment ds nm ns hsub hpoll
  simp [argoSubmit, hsub, hpoll]

/-- Witness for the amended C1: a source that always reports `Pending`. -/
theorem C1_amended_witness :
    argoSubmit ⟨fun _ => some ("wf-2", "resp-ns"), fun _ => some ⟨[("phase", "Pending")]⟩⟩
      "tok" "api-service" "staging" none =
      (1, "wf-2", "https://your-argo-server.com/workflows/api-deploy-wf/wf-2") := by
  rw [C1_amended_exhaustion_failure
    ⟨fun _ => some ("wf-2", "resp-ns"), fun _ => some ⟨[("phase", "Pending")]⟩⟩
    "tok" "api-service" "staging" none "wf-2" "resp-ns" rfl rfl]
  decide

/-- C9: deploy settings cannot influence the operation: for any two settings
values (including `None`), `argoSubmit` builds the identical parameter list
and submission request and returns the identical result given the same other
inputs and API behaviour — the resolved `app_branch` is accepted by
`prepare_workflow_parameters` but never included in the parameters. -/
theorem C9_settings_noninterference :
    ∀ (api : ApiBehavior) (argo_token repo_name environment : String)
      (ds1 ds2 : Option PyDict),
      (∀ (env app : String) (b1 b2 : Json),
        prepare_workflow_parameters env app b1 = prepare_workflow_parameters env app b2) ∧
      argoSubmitParameters repo_name environment ds1 =
        argoSubmitParameters repo_name environment ds2 ∧
      argoSubmitRequest repo_name environment ds1 =
        argoSubmitRequest repo_name environment ds2 ∧
      argoSubmit api argo_token repo_name environment ds1 =
        argoSubmit api argo_token repo_name environment ds2 := by
  intro api argo_token repo_name environment ds1 ds2
  exact ⟨fun _ _ _ _ => rfl, rfl, rfl, rfl⟩

end Argo
